import Mathlib

/-!
Shallow embedding of the notification subsystem in
crates/workspace/src/notifications.rs.

Notification kinds are Rust TypeId values; we model them as natural
numbers. The reserved kind of the generic message-notification widget
(simple_message_notification::MessageNotification) is the constant
messageNotificationKind. Views created by builders are modelled as
handles carrying a fresh entity id and their content; invoking a
builder is modelled by allocating the fresh id and bumping a build
counter, which makes "the builder was invoked" observable in the state.
The gpui subscription made in show_notification is modelled as a record
mapping the entity id of the subscribed view to the (kind, id) pair
captured by the closure (lines 105-107 of the source).
-/

/-- Notification kind: models std::any::TypeId, an opaque identifier. -/
abbrev Kind := Nat

/-- The TypeId of simple_message_notification::MessageNotification, the
reserved kind shared by show_toast, dismiss_toast and show_error. -/
def messageNotificationKind : Kind := 0

/-- Models simple_message_notification::MessageNotification: message text,
optional click-button label, optional click callback (opaque token). -/
structure MessageNotification where
  message : String
  clickMessage : Option String
  onClickToken : Option Nat
deriving DecidableEq, Repr

/-- MessageNotification::new (source lines 187-196). -/
def MessageNotification.new (message : String) : MessageNotification :=
  { message := message, clickMessage := none, onClickToken := none }

/-- MessageNotification::with_click_message (source lines 198-204). -/
def MessageNotification.with_click_message (m : MessageNotification)
    (s : String) : MessageNotification :=
  { m with clickMessage := some s }

/-- MessageNotification::on_click (source lines 206-212); the callback is
kept as an opaque token. -/
def MessageNotification.on_click (m : MessageNotification) (cb : Nat) :
    MessageNotification :=
  { m with onClickToken := some cb }

/-- Content of a rendered view: either a MessageNotification or an opaque
view of some other notification type (the registry never inspects it). -/
inductive HContent where
  | message (m : MessageNotification)
  | other (tag : Nat)
deriving DecidableEq, Repr

/-- A NotificationHandle: stable entity id plus the view content. -/
structure Handle where
  entityId : Nat
  content : HContent
deriving DecidableEq, Repr

/-- One element of Workspace.notifications: (TypeId, usize, Box<dyn NotificationHandle>). -/
structure Entry where
  kind : Kind
  id : Nat
  handle : Handle
deriving DecidableEq, Repr

/-- A detached gpui subscription created in show_notification: when the
view with this entity id emits DismissEvent, the closure dismisses the
captured (kind, id). -/
structure DismissSub where
  entityId : Nat
  kind : Kind
  id : Nat
deriving DecidableEq, Repr

/-- Toast (value object): instance id, message, optional (label, callback). -/
structure Toast where
  id : Nat
  msg : String
  onClick : Option (String × Nat)
deriving DecidableEq, Repr

/-- Workspace-side notification state together with the process-global
NotificationTracker (notifications_sent : HashMap<TypeId, Vec<usize>>,
modelled as an association list since it is only accessed by key).
nextEntityId supplies fresh view entity ids; buildCount counts builder
invocations; notifyCount counts cx.notify() calls; errorLog models the
log::error! sink. -/
structure WState where
  notifications : List Entry
  subs : List DismissSub
  tracker : List (Kind × List Nat)
  nextEntityId : Nat
  buildCount : Nat
  notifyCount : Nat
  errorLog : List String
deriving DecidableEq, Repr

/-- The state right after init(cx): empty registry, fresh tracker. -/
def initState : WState :=
  { notifications := [], subs := [], tracker := [], nextEntityId := 0,
    buildCount := 0, notifyCount := 0, errorLog := [] }

/-- HashMap::get on the tracker (first entry with the key). -/
def trackerGet : List (Kind × List Nat) → Kind → Option (List Nat)
  | [], _ => none
  | (k2, ids) :: rest, k => if k2 == k then some ids else trackerGet rest k

/-- tracker.entry(type_id).or_default().push(id) (source lines 83-85). -/
def trackerRecord : List (Kind × List Nat) → Kind → Nat → List (Kind × List Nat)
  | [], k, i => [(k, [i])]
  | (k2, ids) :: rest, k, i =>
      if k2 == k then (k2, ids ++ [i]) :: rest
      else (k2, ids) :: trackerRecord rest k i

/-- Does an entry match the (kind, id) key? -/
def notifMatches (k : Kind) (i : Nat) (e : Entry) : Bool :=
  e.kind == k && e.id == i

/-- Workspace::has_shown_notification_once (source lines 65-74):
get(&TypeId::of::<V>()).map(|ids| ids.contains(&id)).unwrap_or(false). -/
def has_shown_notification_once (st : WState) (k : Kind) (i : Nat) : Bool :=
  match trackerGet st.tracker k with
  | some ids => ids.contains i
  | none => false

/-- Workspace::show_notification (source lines 90-113): if no existing
entry has this (type_id, id), build the view, subscribe to its
DismissEvent, push the entry and call cx.notify(); otherwise do nothing. -/
def show_notification (st : WState) (k : Kind) (i : Nat) (c : HContent) : WState :=
  if st.notifications.all (fun e => !(notifMatches k i e)) then
    let h : Handle := { entityId := st.nextEntityId, content := c }
    { st with
      buildCount := st.buildCount + 1,
      nextEntityId := st.nextEntityId + 1,
      subs := st.subs ++ [{ entityId := h.entityId, kind := k, id := i }],
      notifications := st.notifications ++ [{ kind := k, id := i, handle := h }],
      notifyCount := st.notifyCount + 1 }
  else st

/-- Workspace::show_notification_once (source lines 76-88): if the pair was
never shown, record it in the tracker and delegate to show_notification;
otherwise do nothing (builder untouched). -/
def show_notification_once (st : WState) (k : Kind) (i : Nat) (c : HContent) : WState :=
  if has_shown_notification_once st k i then st
  else
    show_notification { st with tracker := trackerRecord st.tracker k i } k i c

/-- Workspace::dismiss_notification_internal (source lines 151-166):
retain entries whose key differs; cx.notify() fires once per removed entry. -/
def dismiss_notification_internal (st : WState) (k : Kind) (i : Nat) : WState :=
  { st with
    notifications := st.notifications.filter (fun e => !(notifMatches k i e)),
    notifyCount := st.notifyCount + (st.notifications.filter (notifMatches k i)).length }

/-- Workspace::dismiss_notification (source lines 126-130). -/
def dismiss_notification (st : WState) (k : Kind) (i : Nat) : WState :=
  dismiss_notification_internal st k i

/-- Workspace::show_error (source lines 115-124): a MessageNotification
with text "Error: {err:?}" at instance id 0. The argument is the Debug
representation of the error. -/
def show_error (st : WState) (errDebug : String) : WState :=
  show_notification st messageNotificationKind 0
    (HContent.message (MessageNotification.new ("Error: " ++ errDebug)))

/-- The view built by show_toast (source lines 134-144). -/
def toastContent (t : Toast) : HContent :=
  match t.onClick with
  | some (clickMsg, cb) =>
      HContent.message
        (((MessageNotification.new t.msg).with_click_message clickMsg).on_click cb)
  | none => HContent.message (MessageNotification.new t.msg)

/-- Workspace::show_toast (source lines 132-145): dismiss any existing
MessageNotification with toast.id, then show the new one. -/
def show_toast (st : WState) (t : Toast) : WState :=
  show_notification (dismiss_notification st messageNotificationKind t.id)
    messageNotificationKind t.id (toastContent t)

/-- Workspace::dismiss_toast (source lines 147-149). -/
def dismiss_toast (st : WState) (i : Nat) : WState :=
  dismiss_notification st messageNotificationKind i

/-- NotifyResultExt::notify_err (source lines 268-277): Ok passes the value
through; Err logs and shows the error, returning None. -/
def notify_err {α : Type} (r : Except String α) (st : WState) : Option α × WState :=
  match r with
  | Except.ok v => (some v, st)
  | Except.error e =>
      (none, show_error { st with errorLog := st.errorLog ++ ["TODO " ++ e] } e)

/-- The DismissEvent dispatch of the view collaborator: firing the
dismissal signal of the view with entity id eid runs the subscription
closure installed at show time (source lines 105-107), which calls
dismiss_notification_internal with the captured (kind, id). -/
def fire_dismiss (st : WState) (eid : Nat) : WState :=
  match st.subs.find? (fun s => s.entityId == eid) with
  | some s => dismiss_notification_internal st s.kind s.id
  | none => st

/-- The operations that mutate notification state, for stating
invariants over arbitrary operation sequences. -/
inductive Op where
  | showOp (k : Kind) (i : Nat) (c : HContent)
  | showOnceOp (k : Kind) (i : Nat) (c : HContent)
  | showErrorOp (e : String)
  | showToastOp (t : Toast)
  | dismissOp (k : Kind) (i : Nat)
  | dismissToastOp (i : Nat)
  | fireOp (eid : Nat)
  | notifyErrOp (e : String)
deriving DecidableEq, Repr

/-- One operation step. -/
def stepOp (st : WState) : Op → WState
  | Op.showOp k i c => show_notification st k i c
  | Op.showOnceOp k i c => show_notification_once st k i c
  | Op.showErrorOp e => show_error st e
  | Op.showToastOp t => show_toast st t
  | Op.dismissOp k i => dismiss_notification st k i
  | Op.dismissToastOp i => dismiss_toast st i
  | Op.fireOp eid => fire_dismiss st eid
  | Op.notifyErrOp e => (notify_err (Except.error e : Except String Unit) st).2

/-- Run a sequence of operations. -/
def runOps (st : WState) (ops : List Op) : WState :=
  ops.foldl stepOp st

/-- The (kind, id) keys of the active entries, in display order. -/
def keysOf (l : List Entry) : List (Kind × Nat) :=
  l.map (fun e => (e.kind, e.id))

/-- Registry invariant: at most one active entry per (kind, id). -/
def notifKeysNodup (st : WState) : Prop :=
  (keysOf st.notifications).Nodup

/-- The displayed text of a handle content, when it is a message widget. -/
def contentText : HContent → Option String
  | HContent.message m => some m.message
  | HContent.other _ => none


/-- Well-formedness of the once tracker: each recorded id sequence is
duplicate-free. -/
def trackerWf (st : WState) : Prop :=
  ∀ p ∈ st.tracker, (p.2).Nodup

instance (st : WState) : Decidable (notifKeysNodup st) :=
  inferInstanceAs (Decidable ((keysOf st.notifications).Nodup))

instance (st : WState) : Decidable (trackerWf st) :=
  inferInstanceAs (Decidable (∀ p ∈ st.tracker, (p.2).Nodup))


theorem notifMatches_iff (k : Kind) (i : Nat) (e : Entry) :
    notifMatches k i e = true ↔ (e.kind, e.id) = (k, i) := by
  simp [notifMatches, Prod.ext_iff]

theorem any_match_iff (l : List Entry) (k : Kind) (i : Nat) :
    l.any (notifMatches k i) = true ↔ (k, i) ∈ keysOf l := by
  simp [List.any_eq_true, keysOf, List.mem_map, notifMatches]

theorem all_not_match_iff (l : List Entry) (k : Kind) (i : Nat) :
    (l.all fun e => !(notifMatches k i e)) = true ↔ (k, i) ∉ keysOf l := by
  simp [List.all_eq_true, keysOf, List.mem_map, notifMatches]
  constructor
  · intro h e he hk
    rcases h e he with h1 | h2
    · exact absurd hk h1
    · exact h2
  · intro h e he
    by_cases hk : e.kind = k
    · exact Or.inr (h e he hk)
    · exact Or.inl hk

theorem show_notification_noop (st : WState) (k : Kind) (i : Nat) (c : HContent)
    (h : (k, i) ∈ keysOf st.notifications) :
    show_notification st k i c = st := by
  rw [show_notification, if_neg]
  intro hall
  exact (all_not_match_iff _ _ _).mp hall h

theorem show_notification_key_mem (st : WState) (k : Kind) (i : Nat) (c : HContent) :
    (k, i) ∈ keysOf (show_notification st k i c).notifications := by
  rw [show_notification]
  split
  · simp [keysOf]
  · rename_i hall
    by_contra hmem
    exact hall ((all_not_match_iff _ _ _).mpr hmem)

theorem nodup_append_singleton {α : Type} (l : List α) (a : α)
    (h : l.Nodup) (ha : a ∉ l) : (l ++ [a]).Nodup := by
  induction l with
  | nil => simp
  | cons x xs ih =>
    rcases List.nodup_cons.mp h with ⟨hx, hxs⟩
    refine List.nodup_cons.mpr ⟨?_, ih hxs (fun hm => ha (List.mem_cons_of_mem _ hm))⟩
    intro hmem
    rcases List.mem_append.mp hmem with hm | hm
    · exact hx hm
    · rcases List.mem_singleton.mp hm with rfl
      exact ha (List.mem_cons_self _ _)

theorem show_notification_nodup (st : WState) (k : Kind) (i : Nat) (c : HContent)
    (h : notifKeysNodup st) : notifKeysNodup (show_notification st k i c) := by
  rw [show_notification]
  split
  · rename_i hall
    have hnot := (all_not_match_iff _ _ _).mp hall
    unfold notifKeysNodup keysOf at *
    simpa [List.map_append] using nodup_append_singleton _ _ h hnot
  · exact h

theorem filter_keys_sublist (l : List Entry) (p : Entry → Bool) :
    List.Sublist (keysOf (l.filter p)) (keysOf l) :=
  (List.filter_sublist l).map _

theorem dismiss_internal_nodup (st : WState) (k : Kind) (i : Nat)
    (h : notifKeysNodup st) : notifKeysNodup (dismiss_notification_internal st k i) :=
  List.Nodup.sublist (filter_keys_sublist _ _) h

theorem show_once_nodup (st : WState) (k : Kind) (i : Nat) (c : HContent)
    (h : notifKeysNodup st) : notifKeysNodup (show_notification_once st k i c) := by
  rw [show_notification_once]
  split
  · exact h
  · exact show_notification_nodup _ _ _ _ h

theorem fire_dismiss_nodup (st : WState) (eid : Nat)
    (h : notifKeysNodup st) : notifKeysNodup (fire_dismiss st eid) := by
  rw [fire_dismiss]
  split
  · exact dismiss_internal_nodup _ _ _ h
  · exact h

theorem stepOp_nodup (st : WState) (op : Op)
    (h : notifKeysNodup st) : notifKeysNodup (stepOp st op) := by
  cases op with
  | showOp k i c => exact show_notification_nodup _ _ _ _ h
  | showOnceOp k i c => exact show_once_nodup _ _ _ _ h
  | showErrorOp e => exact show_notification_nodup _ _ _ _ h
  | showToastOp t =>
    exact show_notification_nodup _ _ _ _ (dismiss_internal_nodup _ _ _ h)
  | dismissOp k i => exact dismiss_internal_nodup _ _ _ h
  | dismissToastOp i => exact dismiss_internal_nodup _ _ _ h
  | fireOp eid => exact fire_dismiss_nodup _ _ h
  | notifyErrOp e => exact show_notification_nodup _ _ _ _ h

theorem runOps_nodup (st : WState) (ops : List Op)
    (h : notifKeysNodup st) : notifKeysNodup (runOps st ops) := by
  induction ops generalizing st with
  | nil => exact h
  | cons op rest ih => exact ih _ (stepOp_nodup _ _ h)


theorem trackerGet_record_self (t : List (Kind × List Nat)) (k : Kind) (i : Nat) :
    trackerGet (trackerRecord t k i) k = some (((trackerGet t k).getD []) ++ [i]) := by
  induction t with
  | nil => simp [trackerGet, trackerRecord]
  | cons p rest ih =>
    obtain ⟨k2, ids⟩ := p
    by_cases h : k2 = k
    · subst h
      simp [trackerGet, trackerRecord]
    · simp [trackerGet, trackerRecord, h, ih]

theorem trackerGet_record_other (t : List (Kind × List Nat)) (k k2 : Kind) (i : Nat)
    (h : k2 ≠ k) :
    trackerGet (trackerRecord t k i) k2 = trackerGet t k2 := by
  induction t with
  | nil => simp [trackerGet, trackerRecord, Ne.symm h]
  | cons p rest ih =>
    obtain ⟨k3, ids⟩ := p
    by_cases h3 : k3 = k
    · subst h3
      simp [trackerGet, trackerRecord, Ne.symm h]
    · simp [trackerGet, trackerRecord, h3, ih]

theorem has_shown_after_record (st : WState) (k : Kind) (i : Nat) :
    has_shown_notification_once { st with tracker := trackerRecord st.tracker k i } k i = true := by
  rw [has_shown_notification_once]
  simp only [trackerGet_record_self]
  simp

theorem has_shown_record_mono (st : WState) (k k2 : Kind) (i i2 : Nat)
    (h : has_shown_notification_once st k i = true) :
    has_shown_notification_once { st with tracker := trackerRecord st.tracker k2 i2 } k i = true := by
  by_cases hk : k2 = k
  · subst hk
    rw [has_shown_notification_once] at h ⊢
    simp only [trackerGet_record_self]
    cases hg : trackerGet st.tracker k2 with
    | none => rw [hg] at h; exact absurd h (by simp)
    | some ids =>
      rw [hg] at h
      simp only [Option.getD_some]
      simp only [List.elem_eq_mem, List.mem_append, decide_eq_true_eq,
        List.mem_singleton, Bool.decide_or, Bool.or_eq_true] at h ⊢
      exact Or.inl h
  · rw [has_shown_notification_once] at h ⊢
    simp only [trackerGet_record_other st.tracker k2 k i2 (Ne.symm hk)]
    exact h


theorem show_notification_tracker (st : WState) (k : Kind) (i : Nat) (c : HContent) :
    (show_notification st k i c).tracker = st.tracker := by
  rw [show_notification]
  split <;> rfl

theorem fire_dismiss_tracker (st : WState) (eid : Nat) :
    (fire_dismiss st eid).tracker = st.tracker := by
  rw [fire_dismiss]
  split <;> rfl

theorem has_shown_congr (st st2 : WState) (k : Kind) (i : Nat)
    (h : st2.tracker = st.tracker) :
    has_shown_notification_once st2 k i = has_shown_notification_once st k i := by
  rw [has_shown_notification_once, has_shown_notification_once, h]

theorem show_once_noop_of_shown (st : WState) (k : Kind) (i : Nat) (c : HContent)
    (h : has_shown_notification_once st k i = true) :
    show_notification_once st k i c = st := by
  rw [show_notification_once, if_pos h]

theorem show_once_has_shown (st : WState) (k : Kind) (i : Nat) (c : HContent) :
    has_shown_notification_once (show_notification_once st k i c) k i = true := by
  rw [show_notification_once]
  split
  · assumption
  · rw [has_shown_congr _ _ _ _ (show_notification_tracker _ _ _ _)]
    exact has_shown_after_record st k i

theorem stepOp_has_shown_mono (st : WState) (op : Op) (k : Kind) (i : Nat)
    (h : has_shown_notification_once st k i = true) :
    has_shown_notification_once (stepOp st op) k i = true := by
  cases op with
  | showOp k2 i2 c =>
    rw [stepOp, has_shown_congr _ _ _ _ (show_notification_tracker _ _ _ _)]
    exact h
  | showOnceOp k2 i2 c =>
    rw [stepOp, show_notification_once]
    split
    · exact h
    · rw [has_shown_congr _ _ _ _ (show_notification_tracker _ _ _ _)]
      exact has_shown_record_mono st k k2 i i2 h
  | showErrorOp e =>
    rw [stepOp, show_error, has_shown_congr _ _ _ _ (show_notification_tracker _ _ _ _)]
    exact h
  | showToastOp t =>
    rw [stepOp, show_toast, has_shown_congr _ _ _ _ (show_notification_tracker _ _ _ _)]
    exact h
  | dismissOp k2 i2 => exact h
  | dismissToastOp i2 => exact h
  | fireOp eid =>
    rw [stepOp, has_shown_congr _ _ _ _ (fire_dismiss_tracker _ _)]
    exact h
  | notifyErrOp e =>
    rw [stepOp]
    simp only [notify_err, show_error]
    rw [has_shown_congr _ _ _ _ (show_notification_tracker _ _ _ _)]
    exact h

theorem runOps_has_shown_mono (st : WState) (ops : List Op) (k : Kind) (i : Nat)
    (h : has_shown_notification_once st k i = true) :
    has_shown_notification_once (runOps st ops) k i = true := by
  induction ops generalizing st with
  | nil => exact h
  | cons op rest ih => exact ih _ (stepOp_has_shown_mono _ _ _ _ h)

theorem trackerRecord_wf (t : List (Kind × List Nat)) (k : Kind) (i : Nat)
    (hwf : ∀ p ∈ t, (p.2).Nodup)
    (hnot : (match trackerGet t k with
             | some ids => ids.contains i
             | none => false) = false) :
    ∀ p ∈ trackerRecord t k i, (p.2).Nodup := by
  induction t with
  | nil =>
    intro p hp
    simp only [trackerRecord, List.mem_singleton] at hp
    subst hp
    simp
  | cons q rest ih =>
    obtain ⟨k2, ids⟩ := q
    by_cases h2 : k2 = k
    · subst h2
      simp only [trackerGet, beq_self_eq_true, if_true] at hnot
      intro p hp
      simp only [trackerRecord, beq_self_eq_true, if_true, List.mem_cons] at hp
      rcases hp with rfl | hp
      · refine nodup_append_singleton _ _ (hwf _ (List.mem_cons_self _ _)) ?_
        simpa using hnot
      · exact hwf _ (List.mem_cons_of_mem _ hp)
    · intro p hp
      rw [trackerRecord] at hp
      rw [if_neg (by simpa using h2)] at hp
      rcases List.mem_cons.mp hp with rfl | hp
      · exact hwf _ (List.mem_cons_self _ _)
      · refine ih (fun q hq => hwf _ (List.mem_cons_of_mem _ hq)) ?_ p hp
        rw [trackerGet, if_neg (by simpa using h2)] at hnot
        exact hnot


theorem trackerWf_congr (st st2 : WState) (h : st2.tracker = st.tracker)
    (hwf : trackerWf st) : trackerWf st2 := by
  rw [trackerWf, h]
  exact hwf

theorem stepOp_trackerWf (st : WState) (op : Op)
    (hwf : trackerWf st) : trackerWf (stepOp st op) := by
  cases op with
  | showOp k2 i2 c =>
    exact trackerWf_congr _ _ (show_notification_tracker _ _ _ _) hwf
  | showOnceOp k2 i2 c =>
    rw [stepOp, show_notification_once]
    split
    · exact hwf
    · rename_i hns
      refine trackerWf_congr _ _ (show_notification_tracker _ _ _ _) ?_
      intro p hp
      refine trackerRecord_wf st.tracker k2 i2 hwf ?_ p hp
      rw [has_shown_notification_once] at hns
      exact Bool.not_eq_true _ ▸ (Bool.eq_false_iff.mpr hns)
  | showErrorOp e =>
    exact trackerWf_congr _ _ (show_notification_tracker _ _ _ _) hwf
  | showToastOp t =>
    exact trackerWf_congr _ _ (show_notification_tracker _ _ _ _) hwf
  | dismissOp k2 i2 => exact hwf
  | dismissToastOp i2 => exact hwf
  | fireOp eid =>
    exact trackerWf_congr _ _ (fire_dismiss_tracker _ _) hwf
  | notifyErrOp e =>
    refine trackerWf_congr _ _ ?_ hwf
    rw [stepOp]
    simp only [notify_err, show_error]
    rw [show_notification_tracker]

theorem runOps_trackerWf (st : WState) (ops : List Op)
    (hwf : trackerWf st) : trackerWf (runOps st ops) := by
  induction ops generalizing st with
  | nil => exact hwf
  | cons op rest ih => exact ih _ (stepOp_trackerWf _ _ hwf)


theorem all_filter_self (l : List Entry) (p : Entry → Bool) :
    ((l.filter fun e => !(p e)).all fun e => !(p e)) = true := by
  rw [List.all_eq_true]
  intro a ha
  exact (List.mem_filter.mp ha).2

theorem filter_match_of_dismissed (l : List Entry) (p : Entry → Bool) :
    (l.filter fun e => !(p e)).filter p = [] := by
  rw [List.filter_filter]
  rw [List.filter_eq_nil_iff]
  intro a _ hpa
  simp at hpa

theorem dismiss_internal_noop (st : WState) (k : Kind) (i : Nat)
    (h : (st.notifications.all fun e => !(notifMatches k i e)) = true) :
    dismiss_notification_internal st k i = st := by
  have hall := List.all_eq_true.mp h
  have h1 : st.notifications.filter (fun e => !(notifMatches k i e)) = st.notifications :=
    List.filter_eq_self.mpr hall
  have h2 : st.notifications.filter (notifMatches k i) = [] := by
    rw [List.filter_eq_nil_iff]
    intro a ha hpa
    exact absurd hpa (by simpa using hall a ha)
  rw [dismiss_notification_internal, h1, h2]
  rfl

theorem filter_match_eq_nil (l : List Entry) (k : Kind) (i : Nat)
    (h : (k, i) ∉ keysOf l) : l.filter (notifMatches k i) = [] := by
  rw [List.filter_eq_nil_iff]
  intro a ha hpa
  exact h (by rw [← (notifMatches_iff k i a).mp hpa]; exact List.mem_map_of_mem _ ha)

theorem filter_match_len_one (l : List Entry) (k : Kind) (i : Nat)
    (hnd : (keysOf l).Nodup) (hmem : (k, i) ∈ keysOf l) :
    (l.filter (notifMatches k i)).length = 1 := by
  induction l with
  | nil => simp [keysOf] at hmem
  | cons e rest ih =>
    rw [keysOf, List.map_cons] at hnd hmem
    rcases List.nodup_cons.mp hnd with ⟨hh, ht⟩
    by_cases hm : notifMatches k i e = true
    · have hkey := (notifMatches_iff _ _ _).mp hm
      have hnil : rest.filter (notifMatches k i) = [] := by
        refine filter_match_eq_nil _ _ _ ?_
        rw [← hkey]
        exact hh
      rw [List.filter_cons_of_pos hm, hnil]
      rfl
    · rw [List.filter_cons_of_neg hm]
      refine ih ht ?_
      rcases List.mem_cons.mp hmem with h1 | h2
      · exact absurd ((notifMatches_iff k i e).mpr h1.symm) hm
      · exact h2

theorem contentText_toastContent (t : Toast) : contentText (toastContent t) = some t.msg := by
  rw [toastContent]
  cases h : t.onClick with
  | none => rfl
  | some p =>
    obtain ⟨cm, cb⟩ := p
    rfl

theorem show_notification_errorLog (st : WState) (k : Kind) (i : Nat) (c : HContent) :
    (show_notification st k i c).errorLog = st.errorLog := by
  rw [show_notification]
  split <;> rfl


/-- Claim C1: showing the same (kind, id) twice with no intervening dismiss leaves
exactly one active entry for that pair and the second call is a no-op whose
handle never reaches the active entries; every sequence of operations
preserves the at-most-one-entry-per-key invariant. -/
theorem C1_dedup_invariant (st : WState) (k : Kind) (i : Nat) (c c2 : HContent)
    (ops : List Op) (hnd : notifKeysNodup st) :
    show_notification (show_notification st k i c) k i c2 = show_notification st k i c
    ∧ ((show_notification (show_notification st k i c) k i c2).notifications.filter
        (notifMatches k i)).length = 1
    ∧ notifKeysNodup (runOps st ops) := by
  have hmem := show_notification_key_mem st k i c
  have hnoop := show_notification_noop (show_notification st k i c) k i c2 hmem
  refine ⟨hnoop, ?_, runOps_nodup st ops hnd⟩
  rw [hnoop]
  exact filter_match_len_one _ _ _ (show_notification_nodup st k i c hnd) hmem

theorem C1_dedup_invariant_witness :
    show_notification (show_notification initState 1 2 (HContent.other 0)) 1 2 (HContent.other 1)
      = show_notification initState 1 2 (HContent.other 0)
    ∧ ((show_notification (show_notification initState 1 2 (HContent.other 0)) 1 2
        (HContent.other 1)).notifications.filter (notifMatches 1 2)).length = 1
    ∧ notifKeysNodup (runOps initState [Op.showOp 1 2 (HContent.other 0), Op.dismissOp 1 2]) :=
  C1_dedup_invariant initState 1 2 (HContent.other 0) (HContent.other 1)
    [Op.showOp 1 2 (HContent.other 0), Op.dismissOp 1 2] (by decide)

/-- Claim C2 (counterexample): the claim says a duplicate show still invokes the
builder before the duplicate check; in the code the check runs first, so at a
state with an active (5, 9) entry a duplicate show does not bump the build
counter. -/
theorem C2_counterexample :
    ¬ ((show_notification (show_notification initState 5 9 (HContent.other 3)) 5 9
        (HContent.other 4)).buildCount
      = (show_notification initState 5 9 (HContent.other 3)).buildCount + 1) := by
  decide

/-- Claim C2 (amended): when an entry with the same (kind, id) is already active,
show_notification runs the duplicate check first and returns without invoking
the builder: no candidate handle is produced and no visible effect occurs (the
state, including build counter, subscriptions and display list, is unchanged). -/
theorem C2_check_before_build (st : WState) (k : Kind) (i : Nat) (c : HContent)
    (h : (k, i) ∈ keysOf st.notifications) :
    show_notification st k i c = st
    ∧ (show_notification st k i c).buildCount = st.buildCount
    ∧ (show_notification st k i c).subs = st.subs := by
  have hnoop := show_notification_noop st k i c h
  exact ⟨hnoop, by rw [hnoop], by rw [hnoop]⟩

theorem C2_check_before_build_witness :
    show_notification (show_notification initState 5 9 (HContent.other 3)) 5 9 (HContent.other 4)
      = show_notification initState 5 9 (HContent.other 3)
    ∧ (show_notification (show_notification initState 5 9 (HContent.other 3)) 5 9
        (HContent.other 4)).buildCount = (show_notification initState 5 9 (HContent.other 3)).buildCount
    ∧ (show_notification (show_notification initState 5 9 (HContent.other 3)) 5 9
        (HContent.other 4)).subs = (show_notification initState 5 9 (HContent.other 3)).subs :=
  C2_check_before_build (show_notification initState 5 9 (HContent.other 3)) 5 9
    (HContent.other 4) (by decide)

/-- Claim C3 (counterexample): with a toast-kind notification at instance id 0
displaying "old" already active, show_error leaves the old message displayed,
not the new error text, so the existing notification is not replaced. -/
theorem C3_counterexample :
    ((show_error (show_toast initState { id := 0, msg := "old", onClick := none })
        "boom").notifications.map (fun e => contentText e.handle.content)) = [some "old"]
    ∧ some "old" ≠ some ("Error: " ++ "boom") := by
  exact ⟨rfl, by decide⟩

/-- Claim C3 (amended): when a toast-kind notification with instance id 0 is already
active, a subsequent show_error call is a duplicate-suppressed no-op: exactly
one active toast-kind entry with instance id 0 remains, but it is the existing
notification with its original message, not one displaying the new error text. -/
theorem C3_duplicate_error_suppressed (st : WState) (e : String)
    (hnd : notifKeysNodup st)
    (h : (messageNotificationKind, 0) ∈ keysOf st.notifications) :
    show_error st e = st
    ∧ ((show_error st e).notifications.filter
        (notifMatches messageNotificationKind 0)).length = 1 := by
  have hnoop : show_error st e = st :=
    show_notification_noop st messageNotificationKind 0
      (HContent.message (MessageNotification.new ("Error: " ++ e))) h
  rw [hnoop]
  exact ⟨rfl, filter_match_len_one _ _ _ hnd h⟩

theorem C3_duplicate_error_suppressed_witness :
    show_error (show_toast initState { id := 0, msg := "old", onClick := none }) "boom"
      = show_toast initState { id := 0, msg := "old", onClick := none }
    ∧ ((show_error (show_toast initState { id := 0, msg := "old", onClick := none })
        "boom").notifications.filter (notifMatches messageNotificationKind 0)).length = 1 :=
  C3_duplicate_error_suppressed (show_toast initState { id := 0, msg := "old", onClick := none })
    "boom" (by decide) (by decide)


/-- Claim C4: show_toast first dismisses any toast-kind notification with the same
instance id and then shows the new one, so two toasts sharing an id leave
exactly one active toast-kind entry with that id, displaying the second
message (replace, not stack). -/
theorem C4_toast_replace (st : WState) (i : Nat) (m1 m2 : String)
    (c1 c2 : Option (String × Nat)) :
    ((show_toast (show_toast st { id := i, msg := m1, onClick := c1 })
        { id := i, msg := m2, onClick := c2 }).notifications.filter
      (notifMatches messageNotificationKind i)).map (fun e => contentText e.handle.content)
    = [some m2] := by
  set st1 := show_toast st { id := i, msg := m1, onClick := c1 } with hst1
  rw [show_toast, dismiss_notification, show_notification]
  rw [if_pos]
  · show ((st1.notifications.filter _ ++ _).filter _).map _ = _
    rw [List.filter_append, filter_match_of_dismissed]
    have hnew : notifMatches messageNotificationKind i
        { kind := messageNotificationKind, id := i,
          handle := { entityId := (dismiss_notification_internal st1 messageNotificationKind i).nextEntityId,
                      content := toastContent { id := i, msg := m2, onClick := c2 } } } = true := by
      simp [notifMatches]
    rw [List.filter_cons_of_pos hnew, List.filter_nil]
    simp [contentText_toastContent]
  · exact all_filter_self st1.notifications (notifMatches messageNotificationKind i)

/-- Claim C5: when has_shown_notification_once already holds for (kind, id),
show_notification_once is a complete no-op and the builder is never invoked
(the once check runs strictly before any construction). -/
theorem C5_once_no_builder (st : WState) (k : Kind) (i : Nat) (c : HContent)
    (h : has_shown_notification_once st k i = true) :
    show_notification_once st k i c = st
    ∧ (show_notification_once st k i c).buildCount = st.buildCount :=
  ⟨show_once_noop_of_shown st k i c h, by rw [show_once_noop_of_shown st k i c h]⟩

theorem C5_once_no_builder_witness :
    show_notification_once (show_notification_once initState 3 4 (HContent.other 0)) 3 4
      (HContent.other 1) = show_notification_once initState 3 4 (HContent.other 0)
    ∧ (show_notification_once (show_notification_once initState 3 4 (HContent.other 0)) 3 4
        (HContent.other 1)).buildCount
      = (show_notification_once initState 3 4 (HContent.other 0)).buildCount :=
  C5_once_no_builder (show_notification_once initState 3 4 (HContent.other 0)) 3 4
    (HContent.other 1) (by decide)

/-- Claim C6: after show_notification_once for a pair, has_shown_notification_once
stays true across any further operations (including dismissals), and the once
tracker is monotone with each id recorded at most once per kind. -/
theorem C6_once_tracker_monotone (st : WState) (k : Kind) (i : Nat) (c : HContent)
    (ops : List Op) (hwf : trackerWf st) :
    has_shown_notification_once (runOps (show_notification_once st k i c) ops) k i = true
    ∧ trackerWf (runOps st ops) :=
  ⟨runOps_has_shown_mono _ ops k i (show_once_has_shown st k i c),
   runOps_trackerWf st ops hwf⟩

theorem C6_once_tracker_monotone_witness :
    has_shown_notification_once
      (runOps (show_notification_once initState 3 4 (HContent.other 0))
        [Op.dismissOp 3 4, Op.showToastOp { id := 4, msg := "x", onClick := none }]) 3 4 = true
    ∧ trackerWf (runOps initState
        [Op.dismissOp 3 4, Op.showToastOp { id := 4, msg := "x", onClick := none }]) :=
  C6_once_tracker_monotone initState 3 4 (HContent.other 0)
    [Op.dismissOp 3 4, Op.showToastOp { id := 4, msg := "x", onClick := none }] (by decide)

/-- Claim C7: when the dismissal signal of an active entry fires, the subscription
installed at show time removes exactly the entries with that (kind, id) — the
result is the original sequence filtered at that key, the key no longer
appears, and the remaining entries keep their relative order. -/
theorem C7_dismiss_signal_removes (st : WState) (e : Entry)
    (_hmem : e ∈ st.notifications)
    (hfind : st.subs.find? (fun s => s.entityId == e.handle.entityId)
      = some { entityId := e.handle.entityId, kind := e.kind, id := e.id }) :
    (fire_dismiss st e.handle.entityId).notifications
      = st.notifications.filter (fun x => !(notifMatches e.kind e.id x))
    ∧ ((fire_dismiss st e.handle.entityId).notifications.all
        (fun x => !(notifMatches e.kind e.id x))) = true
    ∧ List.Sublist (fire_dismiss st e.handle.entityId).notifications st.notifications := by
  rw [fire_dismiss, hfind]
  exact ⟨rfl, all_filter_self _ _, List.filter_sublist _⟩

theorem C7_dismiss_signal_removes_witness :
    (fire_dismiss (show_notification (show_notification initState 1 1 (HContent.other 0)) 2 2
        (HContent.other 1)) 0).notifications
      = (show_notification (show_notification initState 1 1 (HContent.other 0)) 2 2
        (HContent.other 1)).notifications.filter (fun x => !(notifMatches 1 1 x))
    ∧ ((fire_dismiss (show_notification (show_notification initState 1 1 (HContent.other 0)) 2 2
        (HContent.other 1)) 0).notifications.all (fun x => !(notifMatches 1 1 x))) = true
    ∧ List.Sublist (fire_dismiss (show_notification (show_notification initState 1 1
        (HContent.other 0)) 2 2 (HContent.other 1)) 0).notifications
      (show_notification (show_notification initState 1 1 (HContent.other 0)) 2 2
        (HContent.other 1)).notifications :=
  C7_dismiss_signal_removes
    (show_notification (show_notification initState 1 1 (HContent.other 0)) 2 2 (HContent.other 1))
    { kind := 1, id := 1, handle := { entityId := 0, content := HContent.other 0 } }
    (by decide) (by decide)


/-- Claim C8: insertion order is display order and survives removal: showing A, B, C
with ids 1, 2, 3 under distinct kinds from an empty registry and dismissing B
leaves exactly [A, C] in order; dismissing a key with no matching entry is a
no-op, and removal always yields a subsequence of the original entries. -/
theorem C8_insertion_order (st : WState) (k1 k2 k3 : Kind) (c1 c2 c3 : HContent)
    (h0 : st.notifications = []) (_h12 : k1 ≠ k2) (_h13 : k1 ≠ k3) (_h23 : k2 ≠ k3) :
    ((dismiss_notification_internal
        (show_notification (show_notification (show_notification st k1 1 c1) k2 2 c2) k3 3 c3)
        k2 2).notifications.map (fun e => (e.kind, e.id, e.handle.content)))
      = [(k1, 1, c1), (k3, 3, c3)]
    ∧ (∀ st2 k i, ((st2.notifications.all fun e => !(notifMatches k i e)) = true) →
        dismiss_notification_internal st2 k i = st2)
    ∧ (∀ st2 k i, List.Sublist (dismiss_notification_internal st2 k i).notifications
        st2.notifications) := by
  refine ⟨?_, fun st2 k i h => dismiss_internal_noop st2 k i h,
    fun st2 k i => List.filter_sublist _⟩
  simp [show_notification, dismiss_notification_internal, notifMatches, h0]

theorem C8_insertion_order_witness :
    ((dismiss_notification_internal
        (show_notification (show_notification (show_notification initState 1 1 (HContent.other 10))
          2 2 (HContent.other 20)) 3 3 (HContent.other 30))
        2 2).notifications.map (fun e => (e.kind, e.id, e.handle.content)))
      = [(1, 1, HContent.other 10), (3, 3, HContent.other 30)]
    ∧ (∀ st2 k i, ((st2.notifications.all fun e => !(notifMatches k i e)) = true) →
        dismiss_notification_internal st2 k i = st2)
    ∧ (∀ st2 k i, List.Sublist (dismiss_notification_internal st2 k i).notifications
        st2.notifications) :=
  C8_insertion_order initState 1 2 3 (HContent.other 10) (HContent.other 20) (HContent.other 30)
    rfl (by decide) (by decide) (by decide)

/-- Claim C9: notify_err returns Some(value) on Ok; on Err it logs the error,
shows it via show_error — leaving exactly one active toast-kind entry at
instance id 0 whose text is "Error: " followed by the debug representation —
and returns None instead of re-raising. -/
theorem C9_notify_err (α : Type) (st : WState) (v : α) (e : String)
    (h : (messageNotificationKind, 0) ∉ keysOf st.notifications) :
    notify_err (Except.ok v) st = (some v, st)
    ∧ (notify_err (Except.error e : Except String α) st).1 = none
    ∧ (notify_err (Except.error e : Except String α) st).2.errorLog
      = st.errorLog ++ ["TODO " ++ e]
    ∧ ((notify_err (Except.error e : Except String α) st).2.notifications.filter
        (notifMatches messageNotificationKind 0)).map (fun x => contentText x.handle.content)
      = [some ("Error: " ++ e)] := by
  refine ⟨rfl, rfl, ?_, ?_⟩
  · show (show_error _ e).errorLog = _
    rw [show_error, show_notification_errorLog]
  · show ((show_error { st with errorLog := st.errorLog ++ ["TODO " ++ e] }
        e).notifications.filter (notifMatches messageNotificationKind 0)).map
        (fun x => contentText x.handle.content) = [some ("Error: " ++ e)]
    rw [show_error, show_notification, if_pos]
    · show ((st.notifications ++ _).filter _).map _ = _
      rw [List.filter_append, filter_match_eq_nil st.notifications _ _ h]
      rw [List.filter_cons_of_pos (by simp [notifMatches]), List.filter_nil]
      rfl
    · exact (all_not_match_iff _ _ _).mpr h

theorem C9_notify_err_witness :
    notify_err (Except.ok 7) initState = (some 7, initState)
    ∧ (notify_err (Except.error "boom" : Except String Nat) initState).1 = none
    ∧ (notify_err (Except.error "boom" : Except String Nat) initState).2.errorLog
      = initState.errorLog ++ ["TODO " ++ "boom"]
    ∧ ((notify_err (Except.error "boom" : Except String Nat) initState).2.notifications.filter
        (notifMatches messageNotificationKind 0)).map (fun x => contentText x.handle.content)
      = [some ("Error: " ++ "boom")] :=
  C9_notify_err Nat initState 7 "boom" (by decide)

/-- Claim C10: show_notification_once records the pair in the once tracker before
the duplicate check of the registry runs: when an entry with the same
(kind, id) is already active and the pair was never once-shown, the call marks
the pair as shown, displays nothing new, never invokes the builder, and every
later show_notification_once for that pair is a no-op. -/
theorem C10_once_records_before_check (st : WState) (k : Kind) (i : Nat)
    (c c2 : HContent) (ops : List Op)
    (hactive : (k, i) ∈ keysOf st.notifications)
    (hnot : has_shown_notification_once st k i = false) :
    has_shown_notification_once (show_notification_once st k i c) k i = true
    ∧ (show_notification_once st k i c).notifications = st.notifications
    ∧ (show_notification_once st k i c).buildCount = st.buildCount
    ∧ show_notification_once (runOps (show_notification_once st k i c) ops) k i c2
        = runOps (show_notification_once st k i c) ops := by
  have h1 := show_once_has_shown st k i c
  have hrec : show_notification_once st k i c
      = { st with tracker := trackerRecord st.tracker k i } := by
    rw [show_notification_once, if_neg (by simp [hnot])]
    exact show_notification_noop { st with tracker := trackerRecord st.tracker k i } k i c hactive
  refine ⟨h1, by rw [hrec], by rw [hrec], ?_⟩
  exact show_once_noop_of_shown _ k i c2 (runOps_has_shown_mono _ ops k i h1)

theorem C10_once_records_before_check_witness :
    has_shown_notification_once
      (show_notification_once (show_notification initState 4 5 (HContent.other 0)) 4 5
        (HContent.other 1)) 4 5 = true
    ∧ (show_notification_once (show_notification initState 4 5 (HContent.other 0)) 4 5
        (HContent.other 1)).notifications
      = (show_notification initState 4 5 (HContent.other 0)).notifications
    ∧ (show_notification_once (show_notification initState 4 5 (HContent.other 0)) 4 5
        (HContent.other 1)).buildCount
      = (show_notification initState 4 5 (HContent.other 0)).buildCount
    ∧ show_notification_once
        (runOps (show_notification_once (show_notification initState 4 5 (HContent.other 0)) 4 5
          (HContent.other 1)) [Op.dismissOp 4 5]) 4 5 (HContent.other 2)
      = runOps (show_notification_once (show_notification initState 4 5 (HContent.other 0)) 4 5
          (HContent.other 1)) [Op.dismissOp 4 5] :=
  C10_once_records_before_check (show_notification initState 4 5 (HContent.other 0)) 4 5
    (HContent.other 1) (HContent.other 2) [Op.dismissOp 4 5] (by decide) (by decide)
